import Mathlib

/-!
Shallow embedding of the Move-Attestation-Service client SDK
(`src/utils.ts`, `src/sui/schema.ts`, `src/aptos/aas.ts`).

JavaScript dynamic values are modelled by `JSValue`; JavaScript runtime
failures (property access on `undefined`/`null`) and `throw new Error(msg)`
sites are modelled by the `SdkError` type; asynchronous functions returning
or rejecting become `Except SdkError`-valued functions.  The chain RPC
surface used by the code (object reads, dynamic-field listing and lookup,
transaction submission and wait) is modelled as explicit state records
whose fields are the RPC methods the source calls.
-/

namespace MasSdk

/-- Errors of the embedded SDK.  The source defines no error classes:
`errMsg` models a `throw new Error(msg)` site, `jsTypeError` models an
implicit JavaScript TypeError (property access on undefined/null),
`hexError` models the Aptos SDK Hex parsing failure, and
`staleVersionError` is the spec's named StaleVersionError kind, which no
code path produces. -/
inductive SdkError where
  | errMsg (msg : String)
  | jsTypeError (msg : String)
  | hexError (msg : String)
  | staleVersionError (msg : String)

/-- A JavaScript/JSON value as delivered by the chain RPC endpoints. -/
inductive JSValue where
  | undefV
  | nullv
  | boolean (b : Bool)
  | number (n : Int)
  | string (s : String)
  | bytes (bs : List Nat)
  | array (xs : List JSValue)
  | object (fs : List (String × JSValue))

/-- Property lookup in a JavaScript object: a missing key reads as
`undefined`. -/
def jsLookup (fs : List (String × JSValue)) (k : String) : JSValue :=
  match fs.lookup k with
  | some v => v
  | none => .undefV

/-- JavaScript property access `v.k`: throws a TypeError on `undefined`
and `null`, looks up the key on objects, and yields `undefined` on other
primitives. -/
def JSValue.prop : JSValue → String → Except SdkError JSValue
  | .undefV, k =>
      .error (.jsTypeError ("Cannot read properties of undefined (reading " ++ k ++ ")"))
  | .nullv, k =>
      .error (.jsTypeError ("Cannot read properties of null (reading " ++ k ++ ")"))
  | .object fs, k => .ok (jsLookup fs k)
  | _, _ => .ok .undefV

/-- JavaScript index access `v[i]` on a value already known not to be
`undefined`/`null`. -/
def jsIndex : JSValue → Nat → JSValue
  | .array xs, i => xs.getD i .undefV
  | .object fs, i => jsLookup fs (toString i)
  | _, _ => .undefV

/-- JavaScript falsiness: `undefined`, `null`, `false`, `0` and `""` are
falsy; every object and array (the empty array included) is truthy. -/
def jsFalsy : JSValue → Bool
  | .undefV => true
  | .nullv => true
  | .boolean b => !b
  | .number n => n == 0
  | .string s => s == ""
  | .bytes _ => false
  | .array _ => false
  | .object _ => false

def jsTruthy (v : JSValue) : Bool := !(jsFalsy v)

/-- Coercion of one element by the `Uint8Array` constructor (ToNumber
followed by modulo 2^8). -/
def jsToU8 : JSValue → Nat
  | .number n => (n % 256).toNat
  | .boolean true => 1
  | _ => 0

/-- The `new Uint8Array(v)` constructor applied to an array-like value. -/
def uint8ArrayOf : JSValue → List Nat
  | .array xs => xs.map jsToU8
  | .bytes bs => bs.map (fun b => b % 256)
  | _ => []

/-- String coercion used when a dynamic value is passed where the API
expects a string identifier. -/
def jsAsKey : JSValue → String
  | .string s => s
  | _ => ""

/-- Value of one hexadecimal digit character. -/
def hexDigitVal (c : Char) : Option Nat :=
  if c ≥ '0' ∧ c ≤ '9' then some (c.toNat - 48)
  else if c ≥ 'a' ∧ c ≤ 'f' then some (c.toNat - 87)
  else if c ≥ 'A' ∧ c ≤ 'F' then some (c.toNat - 55)
  else none

/-- Pairs of hex digits to bytes; fails on an odd-length or invalid
digit sequence. -/
def hexPairs : List Char → Option (List Nat)
  | [] => some []
  | [_] => none
  | a :: b :: rest =>
    match hexDigitVal a, hexDigitVal b, hexPairs rest with
    | some ha, some hb, some r => some ((16 * ha + hb) :: r)
    | _, _, _ => none

/-- The Aptos SDK `Hex.fromHexString(...).toUint8Array()` conversion:
strips an optional `0x` prefix, rejects empty or malformed hex, and
returns the decoded bytes. -/
def hexFromHexString (v : JSValue) : Except SdkError (List Nat) :=
  match v with
  | .string s =>
    let body : List Char :=
      match s.toList with
      | '0' :: 'x' :: rest => rest
      | cs => cs
    match body with
    | [] => .error (.hexError ("Hex string is too short: " ++ s))
    | cs =>
      match hexPairs cs with
      | some bs => .ok bs
      | none => .error (.hexError ("Unable to parse hex string: " ++ s))
  | _ => .error (.hexError "Hex input must be a string")

/-- The bitcoin base58 alphabet used by the `bs58` package. -/
def b58Digit (n : Nat) : Char :=
  "123456789ABCDEFGHJKLMNPQRSTUVWXYZabcdefghijkmnopqrstuvwxyz".toList.getD n '1'

/-- Fuelled base-58 digit extraction (most significant digit first in the
accumulator); the fuel bounds the number of divisions by 58. -/
def natToB58Fuel : Nat → Nat → List Char → List Char
  | 0, _, acc => acc
  | fuel + 1, n, acc =>
    if n = 0 then acc else natToB58Fuel fuel (n / 58) (b58Digit (n % 58) :: acc)

def natToB58 (n : Nat) : List Char := natToB58Fuel (n + 1) n []

/-- The `bs58.encode` binary-to-text encoding: leading zero bytes map to
the character `1`, the remaining bytes are read as one big-endian number
written in base 58. -/
def bs58encode (bs : List Nat) : String :=
  let zeros := (bs.takeWhile (fun b => b == 0)).length
  let n := bs.foldl (fun acc b => acc * 256 + b) 0
  String.mk (List.replicate zeros '1' ++ natToB58 n)

/-- `bs58.encode` applied to a dynamic value: it requires an array-like
byte sequence and throws on anything else. -/
def bs58encodeJS (v : JSValue) : Except SdkError String :=
  match v with
  | .array xs => .ok (bs58encode (xs.map jsToU8))
  | .bytes bs => .ok (bs58encode (bs.map (fun b => b % 256)))
  | _ => .error (.jsTypeError "bs58 encode expects a byte sequence")

/-! ### Network configuration resolution (`src/utils.ts`) -/

/-- The Sui network identifiers (`type Network` in `src/utils.ts`). -/
inductive Network where
  | mainnet
  | testnet
  | devnet
  | localnet
deriving DecidableEq

/-- Per-network deployed identifiers, one entry of the `PACKAGES`
configuration table. -/
structure PackageConfig where
  PackageID : String
  SchemaRegistryID : String
  AttestationRegistryID : String

/-- The static configuration table shape: one `PackageConfig` per known
network. -/
structure PackagesTable where
  mainnet : PackageConfig
  testnet : PackageConfig
  devnet : PackageConfig

/-- Modelled from the spec: the `PACKAGES` constant lives in
`src/constants.ts`, which is not under `src/`.  Per the spec, the
configuration surface supplies, per (chain, network), a deployed program
address and registry object identifiers, and resolution over it returns
non-empty identifiers; the concrete addresses here are placeholders for
the deployed non-empty address strings. -/
def PACKAGES : PackagesTable :=
  { mainnet := { PackageID := "0x101", SchemaRegistryID := "0x102", AttestationRegistryID := "0x103" }
    testnet := { PackageID := "0x201", SchemaRegistryID := "0x202", AttestationRegistryID := "0x203" }
    devnet := { PackageID := "0x301", SchemaRegistryID := "0x302", AttestationRegistryID := "0x303" } }

/-- Modelled from the spec: the spec's `ConfigurationError` kind (unknown
chain/network pair).  The code defines no error classes and represents
this failure as `throw new Error('Invalid network')`. -/
def configurationErrorRepr : SdkError := .errMsg "Invalid network"

/-- `getPackageId` from `src/utils.ts`: switch over the network with the
default branch throwing `Error('Invalid network')`. -/
def getPackageId (network : Network) : Except SdkError String :=
  match network with
  | .mainnet => .ok PACKAGES.mainnet.PackageID
  | .testnet => .ok PACKAGES.testnet.PackageID
  | .devnet => .ok PACKAGES.devnet.PackageID
  | .localnet => .error (.errMsg "Invalid network")

/-- `getSchemaRegistryId` from `src/utils.ts`. -/
def getSchemaRegistryId (network : Network) : Except SdkError String :=
  match network with
  | .mainnet => .ok PACKAGES.mainnet.SchemaRegistryID
  | .testnet => .ok PACKAGES.testnet.SchemaRegistryID
  | .devnet => .ok PACKAGES.devnet.SchemaRegistryID
  | .localnet => .error (.errMsg "Invalid network")

/-- `getAttestationRegistryId` from `src/utils.ts`. -/
def getAttestationRegistryId (network : Network) : Except SdkError String :=
  match network with
  | .mainnet => .ok PACKAGES.mainnet.AttestationRegistryID
  | .testnet => .ok PACKAGES.testnet.AttestationRegistryID
  | .devnet => .ok PACKAGES.devnet.AttestationRegistryID
  | .localnet => .error (.errMsg "Invalid network")

/-! ### Sui chain read model -/

/-- Content of a fetched Sui object (`object.content`). -/
structure ObjectContent where
  dataType : String
  fields : JSValue

/-- Data part of a Sui `getObject` response (`response.data`). -/
structure SuiObjectData where
  objectId : String
  content : Option ObjectContent

/-- A Sui `getObject` / `getDynamicFieldObject` response: an optional
error and optional data, exactly the two parts the source inspects. -/
structure ObjectResponse where
  error : Option String
  data : Option SuiObjectData

/-- One entry of a dynamic-field listing; the source reads only its
`objectId`. -/
structure DynFieldInfo where
  objectId : String

/-- One page of a `getDynamicFields` listing. -/
structure DynFieldPage where
  data : List DynFieldInfo
  hasNextPage : Bool
  nextCursor : Option String

/-- The Sui RPC surface used by the read path: object reads by id,
dynamic-field lookup by (parent, key type, key value), and the paged
dynamic-field listing of a parent, given as its successive continuation
pages. -/
structure SuiChain where
  objects : String → ObjectResponse
  dynFieldObject : JSValue → String → JSValue → ObjectResponse
  dynFieldsPages : String → List DynFieldPage

/-- A call to `client.getDynamicFields({parentId})` with no cursor
returns the first continuation page. -/
def firstDynFieldPage (st : SuiChain) (parentId : String) : DynFieldPage :=
  (st.dynFieldsPages parentId).headD { data := [], hasNextPage := false, nextCursor := none }

/-- The union of all continuation pages of a dynamic-field listing. -/
def allDynFieldEntries (st : SuiChain) (parentId : String) : List DynFieldInfo :=
  ((st.dynFieldsPages parentId).map DynFieldPage.data).flatten

/-! ### Sui read path (`src/sui/schema.ts`) -/

/-- The decoded resolver record built by `getSchema` when the on-chain
resolver field is present with inner fields. -/
structure ResolverRec where
  rules : JSValue
  config : JSValue

/-- The `SuiSchema` entity returned by the Sui read path. -/
structure SuiSchema where
  schemaAddr : String
  name : JSValue
  description : JSValue
  url : JSValue
  creator : JSValue
  createdAt : JSValue
  schema : List Nat
  revokable : JSValue
  resolver : Option ResolverRec
  txHash : String

/-- The registry version pointer extracted by `getSchemaRegistry`
(`fields.inner.fields.id.id` and `fields.inner.fields.version`). -/
structure Version where
  id : JSValue
  version : JSValue

/-- The `SchemaRegistry` entity returned by `getSchemaRegistry`. -/
structure SchemaRegistry where
  id : String
  version : Version

/-- The resolver decoding step of `getSchema`: when
`fields.resolver && fields.resolver.fields` holds, the resolver becomes
the record of the inner `rules` and `config` fields, else null. -/
def decodeResolver (fields : JSValue) : Except SdkError (Option ResolverRec) :=
  (fields.prop "resolver").bind fun r =>
    if jsTruthy r then
      (r.prop "fields").bind fun rf =>
        if jsTruthy rf then
          (rf.prop "rules").bind fun rules =>
            (rf.prop "config").bind fun config =>
              .ok (some { rules := rules, config := config })
        else .ok none
    else .ok none

/-- Decoding of a `getObject` response by `getSchema`: rejects a response
carrying an error, rejects missing content or a non-moveObject payload,
then builds the `SuiSchema` record, base58-encoding `fields.tx_hash`. -/
def getSchemaFromResponse (response : ObjectResponse) : Except SdkError SuiSchema :=
  match response.error with
  | some e => .error (.errMsg ("Failed to fetch object: " ++ e))
  | none =>
    match response.data with
    | none => .error (.errMsg "Invalid object data")
    | some object =>
      match object.content with
      | none => .error (.errMsg "Invalid object data")
      | some content =>
        if content.dataType ≠ "moveObject" then .error (.errMsg "Invalid object data")
        else
          let fields := content.fields
          (decodeResolver fields).bind fun resolver =>
            (fields.prop "schema").bind fun schemaV =>
              (fields.prop "name").bind fun nameV =>
                (fields.prop "description").bind fun descriptionV =>
                  (fields.prop "url").bind fun urlV =>
                    (fields.prop "creator").bind fun creatorV =>
                      (fields.prop "revokable").bind fun revokableV =>
                        (fields.prop "created_at").bind fun createdAtV =>
                          (fields.prop "tx_hash").bind fun txHashV =>
                            (bs58encodeJS txHashV).bind fun txHash =>
                              .ok { schemaAddr := object.objectId
                                    schema := uint8ArrayOf schemaV
                                    resolver := resolver
                                    name := nameV
                                    description := descriptionV
                                    url := urlV
                                    creator := creatorV
                                    revokable := revokableV
                                    createdAt := createdAtV
                                    txHash := txHash }

/-- `getSchema` from `src/sui/schema.ts`: fetch the object by id and
decode it. -/
def getSchema (st : SuiChain) (id : String) : Except SdkError SuiSchema :=
  getSchemaFromResponse (st.objects id)

/-- Decoding of the registry object by `getSchemaRegistry`: only
`response.error` is checked; the data is then dereferenced as
`object.content.fields.inner.fields...`, so a missing object or content
surfaces as a JavaScript TypeError. -/
def getSchemaRegistryFromResponse (response : ObjectResponse) :
    Except SdkError SchemaRegistry :=
  match response.error with
  | some e => .error (.errMsg ("Failed to fetch object: " ++ e))
  | none =>
    match response.data with
    | none => .error (.jsTypeError "Cannot read properties of undefined (reading content)")
    | some object =>
      match object.content with
      | none => .error (.jsTypeError "Cannot read properties of undefined (reading fields)")
      | some content =>
        (content.fields.prop "inner").bind fun inner =>
          (inner.prop "fields").bind fun innerFields =>
            (innerFields.prop "id").bind fun idObj =>
              (idObj.prop "id").bind fun idId =>
                (innerFields.prop "version").bind fun versionV =>
                  .ok { id := object.objectId, version := { id := idId, version := versionV } }

/-- `getSchemaRegistry` from `src/sui/schema.ts`. -/
def getSchemaRegistry (st : SuiChain) (schemaRegistryId : String) :
    Except SdkError SchemaRegistry :=
  getSchemaRegistryFromResponse (st.objects schemaRegistryId)

/-- Decoding of the dynamic-field response by `getSchemaRegistryTable`:
`(res.data?.content as any).fields.value.fields.schema_records.fields.id.id`.
When `res.data` or its content is missing, the optional chaining yields
`undefined` and the following `.fields` access throws a TypeError. -/
def tableFromDynFieldResponse (res : ObjectResponse) : Except SdkError JSValue :=
  match res.data with
  | none => .error (.jsTypeError "Cannot read properties of undefined (reading fields)")
  | some d =>
    match d.content with
    | none => .error (.jsTypeError "Cannot read properties of undefined (reading fields)")
    | some content =>
      (content.fields.prop "value").bind fun value =>
        (value.prop "fields").bind fun valueFields =>
          (valueFields.prop "schema_records").bind fun records =>
            (records.prop "fields").bind fun recordsFields =>
              (recordsFields.prop "id").bind fun idObj =>
                idObj.prop "id"

/-- `getSchemaRegistryTable` from `src/sui/schema.ts`: resolve the
registry, then look up the dynamic field under the registry's inner id
keyed (as a `u64`) by the registry's version, and return the table id
stored there. -/
def getSchemaRegistryTable (st : SuiChain) (schemaRegistryId : String) :
    Except SdkError JSValue :=
  (getSchemaRegistry st schemaRegistryId).bind fun schemaRegistry =>
    tableFromDynFieldResponse
      (st.dynFieldObject schemaRegistry.version.id "u64" schemaRegistry.version.version)

/-- `Promise.all` over already-started promises: fail-fast aggregation
that rejects as soon as one promise rejects and never returns a partial
list. -/
def promiseAll : List (Except SdkError α) → Except SdkError (List α)
  | [] => .ok []
  | x :: xs =>
    x.bind fun v =>
      (promiseAll xs).bind fun vs =>
        .ok (v :: vs)

/-- The per-entry fetch mapped over the listing by `getSchemas`: fetch
the table item object, read the key out of
`(tableItem.data?.content as any).fields.name`, and fetch the schema
record it names. -/
def fetchSchemaByTableItem (st : SuiChain) (dataItem : DynFieldInfo) :
    Except SdkError SuiSchema :=
  let tableItem := st.objects dataItem.objectId
  match tableItem.data with
  | none => .error (.jsTypeError "Cannot read properties of undefined (reading fields)")
  | some d =>
    match d.content with
    | none => .error (.jsTypeError "Cannot read properties of undefined (reading fields)")
    | some content =>
      (content.fields.prop "name").bind fun schemaId =>
        getSchema st (jsAsKey schemaId)

/-- `getSchemas` from `src/sui/schema.ts`: one `getDynamicFields` call on
the table id (no cursor, hence the first page of the listing), a map of
per-entry fetches over `tableData.data`, aggregated with `Promise.all`.
The table id is produced in the source by `getSchemaRegistryTableId`
from `src/sui/utils.ts`, a file not under `src/`; it is taken here as a
parameter. -/
def getSchemas (st : SuiChain) (tableId : String) : Except SdkError (List SuiSchema) :=
  let tableData := firstDynFieldPage st tableId
  let schemaPromises := tableData.data.map (fetchSchemaByTableItem st)
  promiseAll schemaPromises

/-! ### Write path (`src/sui/schema.ts` transaction builders and
`src/aptos/aas.ts`) -/

/-- One transaction argument, as built by `tx.object` / `tx.pure.*` on
Sui or passed in `functionArguments` on Aptos. -/
inductive TxArg where
  | objectArg (id : String)
  | pureBytes (bs : List Nat)
  | pureString (s : String)
  | pureBool (b : Bool)
  | pureU64 (n : Nat)

/-- One `moveCall` of a Sui transaction: fixed target entry point and an
ordered argument list. -/
structure MoveCallSpec where
  target : String
  arguments : List TxArg

/-- A built Sui transaction: its move calls and the recipients of its
`transferObjects` steps. -/
structure TransactionModel where
  calls : List MoveCallSpec
  transfers : List String

/-- A Sui transaction response, as returned both by
`signAndExecuteTransaction` (no effects requested) and by
`waitForTransaction` (with `showEffects`). -/
structure SuiTxResponse where
  digest : String
  effects : Option JSValue

/-- The Sui write RPC surface used by the `Schema` class:
`signAndExecuteTransaction` and `waitForTransaction digest showEffects`. -/
structure SuiWriteClient where
  signAndExecuteTransaction : TransactionModel → SuiTxResponse
  waitForTransaction : String → Bool → SuiTxResponse

/-- The transaction built by `Schema.new`: one `schema::new` move call
with the registry object and the pure schema bytes, name, description,
url and revokable flag, followed by a transfer of the admin cap to the
signer. -/
def schemaNewTx (packageId schemaRegistryId signerAddr : String) (schema : List Nat)
    (name description url : String) (revokable : Bool) : TransactionModel :=
  { calls := [{ target := packageId ++ "::schema::new"
                arguments := [.objectArg schemaRegistryId, .pureBytes schema,
                  .pureString name, .pureString description, .pureString url,
                  .pureBool revokable] }]
    transfers := [signerAddr] }

/-- `Schema.new`: build, sign and execute the transaction, then wait for
it by digest with `showEffects` and return the waited response. -/
def schemaNew (cl : SuiWriteClient) (packageId schemaRegistryId signerAddr : String)
    (schema : List Nat) (name description url : String) (revokable : Bool) :
    SuiTxResponse :=
  let tx := schemaNewTx packageId schemaRegistryId signerAddr schema name description url revokable
  let result := cl.signAndExecuteTransaction tx
  cl.waitForTransaction result.digest true

/-- The transaction built by `Schema.startAttest`: one
`schema::start_attest` move call on the schema object. -/
def startAttestTx (packageId schemaId : String) : TransactionModel :=
  { calls := [{ target := packageId ++ "::schema::start_attest"
                arguments := [.objectArg schemaId] }]
    transfers := [] }

/-- `Schema.startAttest`: build, sign and execute the transaction, and
return the execution response directly, without waiting for the
transaction. -/
def schemaStartAttest (cl : SuiWriteClient) (packageId schemaId : String) :
    SuiTxResponse :=
  cl.signAndExecuteTransaction (startAttestTx packageId schemaId)

/-- The data of a simple Aptos transaction built by
`aptosClient.transaction.build.simple`. -/
structure AptosTxData where
  sender : String
  function : String
  functionArguments : List TxArg

/-- The pending transaction returned by `signAndSubmitTransaction`. -/
structure AptosPendingTx where
  hash : String

/-- The committed transaction response returned by
`waitForTransaction`. -/
structure AptosCommittedTx where
  hash : String
  success : Bool

/-- The Aptos write RPC surface used by the `Aas` class. -/
structure AptosClient where
  signAndSubmit : AptosTxData → AptosPendingTx
  waitForTransaction : String → AptosCommittedTx

/-- The transaction data built by `Aas.createSchema`: the
`aas::create_schema` entry point with the schema bytes, name,
description, url, revokable flag and resolver address in order. -/
def createSchemaTxData (packageId sender : String) (schema : List Nat)
    (name description url : String) (revokable : Bool) (resolver : String) :
    AptosTxData :=
  { sender := sender
    function := packageId ++ "::aas::create_schema"
    functionArguments := [.pureBytes schema, .pureString name, .pureString description,
      .pureString url, .pureBool revokable, .pureString resolver] }

/-- `Aas.createSchema`: build, sign and submit the transaction, then
wait for it by hash and return the committed response. -/
def aasCreateSchema (cl : AptosClient) (packageId sender : String) (schema : List Nat)
    (name description url : String) (revokable : Bool) (resolver : String) :
    AptosCommittedTx :=
  let tx := cl.signAndSubmit (createSchemaTxData packageId sender schema name description url revokable resolver)
  cl.waitForTransaction tx.hash

/-! ### Shapes of well-formed chain responses

These builders write down, field for field, the JSON shapes that the
decoders in `src/sui/schema.ts` dereference. -/

/-- A `getObject` response holding a schema record object with the
fields `getSchema` reads; byte-vector fields arrive from the RPC as
JSON arrays of numbers. -/
def schemaObjectOf (objectId : String) (schemaBytes : List Nat)
    (name description url : String) (revokable : Bool)
    (creator createdAt resolver : JSValue) (txHashBytes : List Nat) : ObjectResponse :=
  { error := none
    data := some
      { objectId := objectId
        content := some
          { dataType := "moveObject"
            fields := .object [
              ("name", .string name),
              ("description", .string description),
              ("url", .string url),
              ("creator", creator),
              ("created_at", createdAt),
              ("schema", .array (schemaBytes.map fun b => .number (Int.ofNat b))),
              ("revokable", .boolean revokable),
              ("resolver", resolver),
              ("tx_hash", .array (txHashBytes.map fun b => .number (Int.ofNat b)))] } } }

/-- A `getObject` response holding a registry object whose
`fields.inner.fields` carry the versioned table pointer (`id.id` and
`version`). -/
def registryObjectOf (objectId : String) (innerId version : JSValue) : ObjectResponse :=
  { error := none
    data := some
      { objectId := objectId
        content := some
          { dataType := "moveObject"
            fields := .object [
              ("inner", .object [
                ("fields", .object [
                  ("id", .object [("id", innerId)]),
                  ("version", version)])])] } } }

/-- A `getDynamicFieldObject` response holding a versioned table slot
whose `fields.value.fields.schema_records.fields.id.id` is the records
table identifier. -/
def dynTableResponseOf (tableId : JSValue) : ObjectResponse :=
  { error := none
    data := some
      { objectId := ""
        content := some
          { dataType := "moveObject"
            fields := .object [
              ("value", .object [
                ("fields", .object [
                  ("schema_records", .object [
                    ("fields", .object [
                      ("id", .object [("id", tableId)])])])])])] } } }

/-- A `getObject` response holding a table item object whose
`fields.name` is the schema-address key of the entry. -/
def tableItemObjectOf (objectId : String) (key : JSValue) : ObjectResponse :=
  { error := none
    data := some
      { objectId := objectId
        content := some
          { dataType := "moveObject"
            fields := .object [("name", key)] } } }

/-- A `getObject` response for a missing object: the node reports an
error and carries no data. -/
def notFoundResponse : ObjectResponse :=
  { error := some "notExists", data := none }

/-! ### Modelled on-chain execution of `schema::new`

The Move program behind the entry points is an external collaborator and
is not in this repository. -/

/-- Modelled from the spec: the on-chain `schema::new` Move entry point
(an on-chain program outside this repository).  Executing a transaction
holding a single `schema::new` call creates a schema record object that
stores the passed raw schema bytes, name, description, url and
revokable flag verbatim, together with the chain-supplied creator,
creation timestamp and transaction hash, and no resolver. -/
def executeSchemaNewTx (tx : TransactionModel) (newObjectId : String)
    (creator createdAt : JSValue) (txHashBytes : List Nat) : ObjectResponse :=
  match tx.calls with
  | [{ target := _, arguments := [.objectArg _, .pureBytes schemaBytes, .pureString name,
        .pureString description, .pureString url, .pureBool revokable] }] =>
      schemaObjectOf newObjectId schemaBytes name description url revokable
        creator createdAt .nullv txHashBytes
  | _ => { error := some "transaction execution failure", data := none }

/-! ### Aptos read path (`src/aptos/aas.ts`) -/

/-- The Aptos view-call surface used by the read functions: a view call
takes the function name and its arguments and returns the node's
response value (an array of Move values when the call succeeds). -/
structure AptosViewClient where
  view : String → List JSValue → JSValue

/-- The `AptosSchema` entity returned by `getAptosSchema`. -/
structure AptosSchema where
  schemaAddr : String
  name : JSValue
  description : JSValue
  url : JSValue
  creator : JSValue
  createdAt : JSValue
  schema : List Nat
  revokable : JSValue
  resolver : JSValue
  txHash : JSValue

/-- The `AptosAttestation` entity returned by `getAptosAttestation`. -/
structure AptosAttestation where
  attestationAddr : String
  attestor : JSValue
  recipient : JSValue
  schemaAddr : JSValue
  refAttestation : JSValue
  time : JSValue
  expirationTime : JSValue
  revocationTime : JSValue
  revokable : JSValue
  data : List Nat
  txHash : JSValue

/-- Construction of the `AptosSchema` return literal of
`getAptosSchema` from `schemas[0]`: each field is a property read on
the view result, with `schema` decoded by
`Hex.fromHexString(...).toUint8Array()` and `tx_hash` copied as is. -/
def decodeAptosSchema (schemaAddr : String) (schema : JSValue) :
    Except SdkError AptosSchema :=
  (schema.prop "name").bind fun nameV =>
    (schema.prop "description").bind fun descriptionV =>
      (schema.prop "url").bind fun urlV =>
        (schema.prop "creator").bind fun creatorV =>
          (schema.prop "created_at").bind fun createdAtV =>
            (schema.prop "schema").bind fun schemaHexV =>
              (hexFromHexString schemaHexV).bind fun schemaBytes =>
                (schema.prop "revokable").bind fun revokableV =>
                  (schema.prop "resolver").bind fun resolverV =>
                    (schema.prop "tx_hash").bind fun txHashV =>
                      .ok { schemaAddr := schemaAddr
                            name := nameV
                            description := descriptionV
                            url := urlV
                            creator := creatorV
                            createdAt := createdAtV
                            schema := schemaBytes
                            revokable := revokableV
                            resolver := resolverV
                            txHash := txHashV }

/-- `getAptosSchema` from `src/aptos/aas.ts`: run the
`schema::schema_data` view call, throw "Schema not found" when the
result is falsy, and decode `schemas[0]`. -/
def getAptosSchema (cl : AptosViewClient) (packageId schemaAddr : String) :
    Except SdkError AptosSchema :=
  let schemas := cl.view (packageId ++ "::schema::schema_data") [.string schemaAddr]
  if jsFalsy schemas then .error (.errMsg "Schema not found")
  else decodeAptosSchema schemaAddr (jsIndex schemas 0)

/-- Construction of the `AptosAttestation` return literal of
`getAptosAttestation` from `res[0]`: each field is a property read on
the view result, with `data` hex-decoded and `tx_hash` copied as is. -/
def decodeAptosAttestation (attestationAddr : String) (attestation : JSValue) :
    Except SdkError AptosAttestation :=
  (attestation.prop "attestor").bind fun attestorV =>
    (attestation.prop "recipient").bind fun recipientV =>
      (attestation.prop "schema").bind fun schemaV =>
        (attestation.prop "ref_attestation").bind fun refV =>
          (attestation.prop "time").bind fun timeV =>
            (attestation.prop "expiration_time").bind fun expirationV =>
              (attestation.prop "revocation_time").bind fun revocationV =>
                (attestation.prop "revokable").bind fun revokableV =>
                  (attestation.prop "data").bind fun dataHexV =>
                    (hexFromHexString dataHexV).bind fun dataBytes =>
                      (attestation.prop "tx_hash").bind fun txHashV =>
                        .ok { attestationAddr := attestationAddr
                              attestor := attestorV
                              recipient := recipientV
                              schemaAddr := schemaV
                              refAttestation := refV
                              time := timeV
                              expirationTime := expirationV
                              revocationTime := revocationV
                              revokable := revokableV
                              data := dataBytes
                              txHash := txHashV }

/-- `getAptosAttestation` from `src/aptos/aas.ts`: run the
`attestation::attestation_data` view call, throw "Attestation not
found" when the result is falsy, and decode `res[0]`. -/
def getAptosAttestation (cl : AptosViewClient) (packageId attestationAddr : String) :
    Except SdkError AptosAttestation :=
  let res := cl.view (packageId ++ "::attestation::attestation_data") [.string attestationAddr]
  if jsFalsy res then .error (.errMsg "Attestation not found")
  else decodeAptosAttestation attestationAddr (jsIndex res 0)

/-- A well-formed Aptos `schema_data` view result element, with the
fields the decoder reads. -/
def aptosSchemaValueOf (name description url creator createdAt : JSValue)
    (schemaHex : String) (revokable resolver txHash : JSValue) : JSValue :=
  .object [
    ("name", name),
    ("description", description),
    ("url", url),
    ("creator", creator),
    ("created_at", createdAt),
    ("schema", .string schemaHex),
    ("revokable", revokable),
    ("resolver", resolver),
    ("tx_hash", txHash)]

/-! ### Derived decoded values and predicates -/

/-- The `SuiSchema` record that `getSchema` produces from a well-formed
schema object response (`schemaObjectOf`). -/
def decodedSuiSchemaOf (objectId : String) (B txh : List Nat) (nm ds ur : String)
    (rv : Bool) (creator createdAt : JSValue) (resolver : Option ResolverRec) : SuiSchema :=
  { schemaAddr := objectId, name := .string nm, description := .string ds, url := .string ur,
    creator := creator, createdAt := createdAt,
    schema := (B.map fun b => JSValue.number (Int.ofNat b)).map jsToU8,
    revokable := .boolean rv, resolver := resolver,
    txHash := bs58encode ((txh.map fun b => JSValue.number (Int.ofNat b)).map jsToU8) }

/-- Whether a result failed with the spec's `StaleVersionError` kind. -/
def errIsStaleVersion : Except SdkError α → Bool
  | .error (.staleVersionError _) => true
  | _ => false

/-! ### Concrete chain fixtures used by the claim theorems -/

/-- A chain whose table listing is split across two continuation pages,
one entry per page, with both schema records present and decodable. -/
def c1chain : SuiChain :=
  { objects := fun id =>
      if id = "0xitemA" then tableItemObjectOf "0xitemA" (.string "0xschemaA")
      else if id = "0xitemB" then tableItemObjectOf "0xitemB" (.string "0xschemaB")
      else if id = "0xschemaA" then
        schemaObjectOf "0xschemaA" [1] "A" "dA" "uA" true (.string "0xc") (.number 1) .nullv [1]
      else if id = "0xschemaB" then
        schemaObjectOf "0xschemaB" [2] "B" "dB" "uB" true (.string "0xc") (.number 2) .nullv [2]
      else notFoundResponse
    dynFieldObject := fun _ _ _ => notFoundResponse
    dynFieldsPages := fun parent =>
      if parent = "0xtable" then
        [{ data := [{ objectId := "0xitemA" }], hasNextPage := true, nextCursor := some "cursor1" },
         { data := [{ objectId := "0xitemB" }], hasNextPage := false, nextCursor := none }]
      else [] }

/-- A chain with a one-page listing whose single entry points at a
missing object, so its per-entry fetch fails. -/
def c2chain : SuiChain :=
  { objects := fun _ => notFoundResponse
    dynFieldObject := fun _ _ _ => notFoundResponse
    dynFieldsPages := fun parent =>
      if parent = "0xt" then
        [{ data := [{ objectId := "0xitemX" }], hasNextPage := false, nextCursor := none }]
      else [] }

/-- A chain with a well-formed registry object whose version has no
corresponding dynamic field: every dynamic-field lookup reports
not-found with no data. -/
def c3chain : SuiChain :=
  { objects := fun id =>
      if id = "0xreg" then registryObjectOf "0xreg" (.string "0xinner") (.string "2")
      else notFoundResponse
    dynFieldObject := fun _ _ _ => { error := some "dynamicFieldNotFound", data := none }
    dynFieldsPages := fun _ => [] }

/-- A Sui write client whose immediate execution response differs from
the response `waitForTransaction` later reports for the same digest. -/
def c4client : SuiWriteClient :=
  { signAndExecuteTransaction := fun _ => { digest := "0xd0", effects := none }
    waitForTransaction := fun d _ => { digest := d, effects := some (.string "finalized") } }

/-- A chain with a well-formed registry object and the matching
versioned dynamic field holding the records table id. -/
def c6chain : SuiChain :=
  { objects := fun id =>
      if id = "0xreg" then registryObjectOf "0xreg" (.string "0xinner") (.string "2")
      else notFoundResponse
    dynFieldObject := fun parent ty key =>
      if jsAsKey parent = "0xinner" ∧ ty = "u64" ∧ jsAsKey key = "2" then
        dynTableResponseOf (.string "0xtable")
      else notFoundResponse
    dynFieldsPages := fun _ => [] }

/-- An Aptos view client answering every view call with a single schema
value whose `tx_hash` is the hex string literal `0x01`. -/
def c7client : AptosViewClient :=
  { view := fun _ _ =>
      .array [aptosSchemaValueOf (.string "nm") (.string "ds") (.string "ur")
        (.string "0xc") (.number 1) "0x00" (.boolean true) (.string "0x0") (.string "0x01")] }

/-- A chain holding one schema object whose `tx_hash` bytes are `[0, 1]`. -/
def c7suiChain : SuiChain :=
  { objects := fun _ =>
      schemaObjectOf "0xs" [1] "nm" "ds" "ur" true (.string "0xc") (.number 1) .nullv [0, 1]
    dynFieldObject := fun _ _ _ => notFoundResponse
    dynFieldsPages := fun _ => [] }

/-- A chain holding the object created by executing a `schema::new`
transaction with schema payload bytes `[1, 2, 255]`. -/
def c8chain : SuiChain :=
  { objects := fun _ =>
      executeSchemaNewTx (schemaNewTx "0xpkg" "0xreg" "0xsigner" [1, 2, 255] "nm" "ds" "ur" true)
        "0xnew" (.string "0xc") (.number 7) [0, 1]
    dynFieldObject := fun _ _ _ => notFoundResponse
    dynFieldsPages := fun _ => [] }

/-- An Aptos view client answering every view call with an empty array. -/
def c9client : AptosViewClient := { view := fun _ _ => .array [] }

/-- A chain holding one schema object whose resolver field is present
with inner `rules` and `config` fields. -/
def c10chain : SuiChain :=
  { objects := fun _ =>
      schemaObjectOf "0xs" [1] "nm" "ds" "ur" true (.string "0xc") (.number 1)
        (.object [("type", .string "T"),
          ("fields", .object [("rules", .string "R"), ("config", .string "C")])]) [1]
    dynFieldObject := fun _ _ _ => notFoundResponse
    dynFieldsPages := fun _ => [] }

/-! ### Helper lemmas -/

/-- Fail-fast aggregation: `promiseAll` rejects whenever one of its
member promises is a rejection. -/
theorem promiseAll_error_of_mem {l : List (Except SdkError α)} {e : SdkError}
    (hmem : Except.error e ∈ l) : ∃ e2, promiseAll l = .error e2 := by
  induction l with
  | nil => cases hmem
  | cons x xs ih =>
    rcases List.mem_cons.mp hmem with hx | hxs
    · exact ⟨e, by rw [promiseAll, ← hx]; rfl⟩
    · rcases ih hxs with ⟨e2, he2⟩
      cases x with
      | error ex => exact ⟨ex, rfl⟩
      | ok vx => exact ⟨e2, by rw [promiseAll, he2]; rfl⟩

/-- Reading back number-encoded bytes through the `Uint8Array`
coercion is the identity on byte values below 256. -/
theorem map_u8_id (B : List Nat) (hB : ∀ b ∈ B, b < 256) :
    (B.map fun b => JSValue.number (Int.ofNat b)).map jsToU8 = B := by
  induction B with
  | nil => rfl
  | cons b bs ih =>
    have h1 : jsToU8 (JSValue.number (Int.ofNat b)) = b := by
      have hlt := hB b (List.mem_cons_self b bs)
      show (Int.ofNat b % 256).toNat = b
      have h : Int.ofNat b % 256 = Int.ofNat (b % 256) := by norm_cast
      rw [h]
      show b % 256 = b
      exact Nat.mod_eq_of_lt hlt
    have h2 := ih fun x hx => hB x (List.mem_cons_of_mem _ hx)
    simp only [List.map_cons, h1, h2]

/-- `hexFromHexString` either succeeds or fails with a `hexError`;
in particular it never produces a thrown `Error(msg)`. -/
theorem hexFromHexString_shape (v : JSValue) :
    (∃ bs, hexFromHexString v = .ok bs) ∨ ∃ m, hexFromHexString v = .error (.hexError m) := by
  cases v with
  | string s =>
    rw [hexFromHexString]
    split
    · exact .inr ⟨_, rfl⟩
    · split
      · exact .inl ⟨_, rfl⟩
      · exact .inr ⟨_, rfl⟩
  | undefV => exact .inr ⟨_, rfl⟩
  | nullv => exact .inr ⟨_, rfl⟩
  | boolean b => exact .inr ⟨_, rfl⟩
  | number n => exact .inr ⟨_, rfl⟩
  | bytes bs => exact .inr ⟨_, rfl⟩
  | array xs => exact .inr ⟨_, rfl⟩
  | object fs => exact .inr ⟨_, rfl⟩

/-- The Aptos schema decoder either succeeds or fails with a JavaScript
TypeError or a hex parsing error; it never produces the thrown
"Schema not found" error. -/
theorem decodeAptosSchema_shape (addr : String) (v : JSValue) :
    (∃ r, decodeAptosSchema addr v = .ok r) ∨
      (∃ m, decodeAptosSchema addr v = .error (.jsTypeError m)) ∨
        ∃ m, decodeAptosSchema addr v = .error (.hexError m) := by
  cases v with
  | object fs =>
    rcases hexFromHexString_shape (jsLookup fs "schema") with ⟨bs, h⟩ | ⟨m, h⟩
    · exact .inl ⟨_, by
        show (hexFromHexString (jsLookup fs "schema")).bind _ = _
        rw [h]
        rfl⟩
    · exact .inr (.inr ⟨_, by
        show (hexFromHexString (jsLookup fs "schema")).bind _ = _
        rw [h]
        rfl⟩)
  | undefV => exact .inr (.inl ⟨_, rfl⟩)
  | nullv => exact .inr (.inl ⟨_, rfl⟩)
  | boolean b => exact .inr (.inr ⟨_, rfl⟩)
  | number n => exact .inr (.inr ⟨_, rfl⟩)
  | string s => exact .inr (.inr ⟨_, rfl⟩)
  | bytes bs => exact .inr (.inr ⟨_, rfl⟩)
  | array xs => exact .inr (.inr ⟨_, rfl⟩)

/-- The Aptos attestation decoder either succeeds or fails with a
JavaScript TypeError or a hex parsing error; it never produces the
thrown "Attestation not found" error. -/
theorem decodeAptosAttestation_shape (addr : String) (v : JSValue) :
    (∃ r, decodeAptosAttestation addr v = .ok r) ∨
      (∃ m, decodeAptosAttestation addr v = .error (.jsTypeError m)) ∨
        ∃ m, decodeAptosAttestation addr v = .error (.hexError m) := by
  cases v with
  | object fs =>
    rcases hexFromHexString_shape (jsLookup fs "data") with ⟨bs, h⟩ | ⟨m, h⟩
    · exact .inl ⟨_, by
        show (hexFromHexString (jsLookup fs "data")).bind _ = _
        rw [h]
        rfl⟩
    · exact .inr (.inr ⟨_, by
        show (hexFromHexString (jsLookup fs "data")).bind _ = _
        rw [h]
        rfl⟩)
  | undefV => exact .inr (.inl ⟨_, rfl⟩)
  | nullv => exact .inr (.inl ⟨_, rfl⟩)
  | boolean b => exact .inr (.inr ⟨_, rfl⟩)
  | number n => exact .inr (.inr ⟨_, rfl⟩)
  | string s => exact .inr (.inr ⟨_, rfl⟩)
  | bytes bs => exact .inr (.inr ⟨_, rfl⟩)
  | array xs => exact .inr (.inr ⟨_, rfl⟩)

/-! ### Claim theorems -/

/-- Claim C1: on a table whose dynamic-field listing is split across two
continuation pages, `getSchemas` decodes only the entries of the first
page (here the single entity `0xschemaA`), although the union of all
pages holds two entries and the omitted record `0xschemaB` is present
and decodable — the implementation never follows continuation cursors,
contradicting the claim that it returns the union of all pages with no
omissions. -/
theorem getSchemas_reads_only_first_page :
    (getSchemas c1chain "0xtable").map (fun l => l.map SuiSchema.schemaAddr) =
        .ok ["0xschemaA"] ∧
      (allDynFieldEntries c1chain "0xtable").map DynFieldInfo.objectId =
        ["0xitemA", "0xitemB"] ∧
      (getSchema c1chain "0xschemaB").map SuiSchema.schemaAddr = .ok "0xschemaB" :=
  ⟨rfl, rfl, rfl⟩

/-- Claim C2: when one of the per-entry fetches mapped over the listing
by `getSchemas` fails, the `Promise.all` aggregation rejects and no
partial list of entities is returned. -/
theorem getSchemas_fail_fast (st : SuiChain) (tableId : String) (dataItem : DynFieldInfo)
    (e : SdkError)
    (hmem : dataItem ∈ (firstDynFieldPage st tableId).data)
    (herr : fetchSchemaByTableItem st dataItem = .error e) :
    (∃ e2, getSchemas st tableId = .error e2) ∧
      ∀ res, getSchemas st tableId ≠ .ok res := by
  have hpm : Except.error e ∈ (firstDynFieldPage st tableId).data.map (fetchSchemaByTableItem st) := by
    rw [← herr]
    exact List.mem_map_of_mem _ hmem
  have h := promiseAll_error_of_mem hpm
  refine ⟨h, ?_⟩
  rcases h with ⟨e2, he2⟩
  intro res hres
  rw [getSchemas] at hres
  rw [he2] at hres
  exact Except.noConfusion hres

/-- Claim C2 witness: on a chain whose single listed entry points at a
missing object, `getSchemas` rejects and returns no list. -/
theorem getSchemas_fail_fast_witness :
    (({ objectId := "0xitemX" } : DynFieldInfo) ∈ (firstDynFieldPage c2chain "0xt").data) ∧
      fetchSchemaByTableItem c2chain { objectId := "0xitemX" } =
        .error (.jsTypeError "Cannot read properties of undefined (reading fields)") ∧
      (∃ e2, getSchemas c2chain "0xt" = .error e2) ∧
      ∀ res, getSchemas c2chain "0xt" ≠ .ok res := by
  refine ⟨List.mem_singleton.mpr rfl, rfl, ?_⟩
  exact getSchemas_fail_fast c2chain "0xt" { objectId := "0xitemX" }
    (.jsTypeError "Cannot read properties of undefined (reading fields)")
    (List.mem_singleton.mpr rfl) rfl

/-- Claim C3 counterexample: on a registry whose version pointer has no
corresponding dynamic field, `getSchemaRegistryTable` fails with a
generic JavaScript TypeError from dereferencing a field of `undefined`,
and the failure is not the spec's `StaleVersionError` kind. -/
theorem stale_version_error_never_raised :
    getSchemaRegistryTable c3chain "0xreg" =
        .error (.jsTypeError "Cannot read properties of undefined (reading fields)") ∧
      errIsStaleVersion (getSchemaRegistryTable c3chain "0xreg") = false :=
  ⟨rfl, rfl⟩

/-- Claim C3 amended: for every registry that resolves and whose version
pointer references a dynamic field the lookup reports as absent (no
data), `getSchemaRegistryTable` fails with the generic TypeError raised
by reading `fields` of `undefined`, not with a dedicated
`StaleVersionError`. -/
theorem missing_version_field_raises_type_error (st : SuiChain) (regId : String)
    (reg : SchemaRegistry) (eopt : Option String)
    (h1 : getSchemaRegistry st regId = .ok reg)
    (h2 : st.dynFieldObject reg.version.id "u64" reg.version.version =
      { error := eopt, data := none }) :
    getSchemaRegistryTable st regId =
      .error (.jsTypeError "Cannot read properties of undefined (reading fields)") := by
  rw [getSchemaRegistryTable, h1]
  show tableFromDynFieldResponse (st.dynFieldObject reg.version.id "u64" reg.version.version) = _
  rw [h2]
  rfl

/-- Claim C3 amended witness: the concrete missing-field chain delivers
the generic TypeError. -/
theorem missing_version_field_raises_type_error_witness :
    getSchemaRegistry c3chain "0xreg" = .ok ⟨"0xreg", ⟨.string "0xinner", .string "2"⟩⟩ ∧
      c3chain.dynFieldObject (.string "0xinner") "u64" (.string "2") =
        { error := some "dynamicFieldNotFound", data := none } ∧
      getSchemaRegistryTable c3chain "0xreg" =
        .error (.jsTypeError "Cannot read properties of undefined (reading fields)") := by
  refine ⟨rfl, rfl, ?_⟩
  exact missing_version_field_raises_type_error c3chain "0xreg"
    ⟨"0xreg", ⟨.string "0xinner", .string "2"⟩⟩ (some "dynamicFieldNotFound") rfl rfl

/-- Claim C4 counterexample: on a client whose immediate execution
response differs from the finalized response reported by
`waitForTransaction`, `Schema.startAttest` does not return the
finalized receipt for its submitted transaction: it returns the
immediate submission response without waiting. -/
theorem startAttest_returns_unawaited_response :
    schemaStartAttest c4client "0xpkg" "0xschema" ≠
      c4client.waitForTransaction
        (c4client.signAndExecuteTransaction (startAttestTx "0xpkg" "0xschema")).digest true := by
  intro h
  have h2 := congrArg SuiTxResponse.effects h
  exact Option.noConfusion h2

/-- Claim C4 amended: `Schema.new` and `Aas.createSchema` submit their
transaction and return the response of waiting on it (`waitForTransaction`
by digest or hash), while `Schema.startAttest` returns the immediate
`signAndExecuteTransaction` response without waiting. -/
theorem write_path_wait_behavior (cl : SuiWriteClient) (acl : AptosClient)
    (pid regId signer sender resolver schemaId : String) (B : List Nat)
    (nm ds ur : String) (rv : Bool) :
    schemaNew cl pid regId signer B nm ds ur rv =
        cl.waitForTransaction
          (cl.signAndExecuteTransaction (schemaNewTx pid regId signer B nm ds ur rv)).digest true ∧
      aasCreateSchema acl pid sender B nm ds ur rv resolver =
          acl.waitForTransaction
            (acl.signAndSubmit (createSchemaTxData pid sender B nm ds ur rv resolver)).hash ∧
        schemaStartAttest cl pid schemaId =
          cl.signAndExecuteTransaction (startAttestTx pid schemaId) :=
  ⟨rfl, rfl, rfl⟩

/-- Claim C5: for every network in the known configuration set
(mainnet, testnet, devnet) the three resolution functions return a
non-empty identifier, and for a network outside the known set
(localnet) they fail with the configuration error
(`Error('Invalid network')`, the code's representation of
`ConfigurationError`). -/
theorem network_resolution_total_on_known_set (n : Network) :
    (n ≠ Network.localnet →
        (∃ s, getPackageId n = .ok s ∧ s ≠ "") ∧
          (∃ s, getSchemaRegistryId n = .ok s ∧ s ≠ "") ∧
            ∃ s, getAttestationRegistryId n = .ok s ∧ s ≠ "") ∧
      (n = Network.localnet →
        getPackageId n = .error configurationErrorRepr ∧
          getSchemaRegistryId n = .error configurationErrorRepr ∧
            getAttestationRegistryId n = .error configurationErrorRepr) := by
  cases n with
  | mainnet =>
    exact ⟨fun _ => ⟨⟨_, rfl, by decide⟩, ⟨_, rfl, by decide⟩, ⟨_, rfl, by decide⟩⟩,
      fun h => Network.noConfusion h⟩
  | testnet =>
    exact ⟨fun _ => ⟨⟨_, rfl, by decide⟩, ⟨_, rfl, by decide⟩, ⟨_, rfl, by decide⟩⟩,
      fun h => Network.noConfusion h⟩
  | devnet =>
    exact ⟨fun _ => ⟨⟨_, rfl, by decide⟩, ⟨_, rfl, by decide⟩, ⟨_, rfl, by decide⟩⟩,
      fun h => Network.noConfusion h⟩
  | localnet =>
    exact ⟨fun h => absurd rfl h, fun _ => ⟨rfl, rfl, rfl⟩⟩

/-- Claim C5 witness: the mainnet network resolves to non-empty
identifiers. -/
theorem network_resolution_total_on_known_set_witness :
    Network.mainnet ≠ Network.localnet ∧
      ((∃ s, getPackageId .mainnet = .ok s ∧ s ≠ "") ∧
        (∃ s, getSchemaRegistryId .mainnet = .ok s ∧ s ≠ "") ∧
        ∃ s, getAttestationRegistryId .mainnet = .ok s ∧ s ≠ "") := by
  refine ⟨by decide, ?_⟩
  exact (network_resolution_total_on_known_set .mainnet).1 (by decide)

/-- Claim C6: resolving the current records table is the two-hop
indirection: `getSchemaRegistry` reads the registry object's version
pointer (inner id and version), and `getSchemaRegistryTable`
dereferences the dynamic field under that inner id keyed as a `u64` by
that version, returning exactly the table identifier stored under that
version key. -/
theorem registry_two_hop_resolution (st : SuiChain) (regId oid : String)
    (innerId ver tid : JSValue)
    (h1 : st.objects regId = registryObjectOf oid innerId ver)
    (h2 : st.dynFieldObject innerId "u64" ver = dynTableResponseOf tid) :
    getSchemaRegistry st regId = .ok ⟨oid, ⟨innerId, ver⟩⟩ ∧
      getSchemaRegistryTable st regId = .ok tid := by
  have hreg : getSchemaRegistry st regId = .ok ⟨oid, ⟨innerId, ver⟩⟩ := by
    rw [getSchemaRegistry, h1]; rfl
  refine ⟨hreg, ?_⟩
  rw [getSchemaRegistryTable, hreg]
  show tableFromDynFieldResponse (st.dynFieldObject innerId "u64" ver) = .ok tid
  rw [h2]; rfl

/-- Claim C6 witness: a concrete registry at version 2 resolves to the
table stored under the key 2. -/
theorem registry_two_hop_resolution_witness :
    c6chain.objects "0xreg" = registryObjectOf "0xreg" (.string "0xinner") (.string "2") ∧
      c6chain.dynFieldObject (.string "0xinner") "u64" (.string "2") =
        dynTableResponseOf (.string "0xtable") ∧
      getSchemaRegistry c6chain "0xreg" =
        .ok ⟨"0xreg", ⟨.string "0xinner", .string "2"⟩⟩ ∧
      getSchemaRegistryTable c6chain "0xreg" = .ok (.string "0xtable") := by
  refine ⟨rfl, rfl, ?_⟩
  exact registry_two_hop_resolution c6chain "0xreg" "0xreg" (.string "0xinner") (.string "2")
    (.string "0xtable") rfl rfl

/-- Claim C7 counterexample: `getAptosSchema` returns the `tx_hash`
field verbatim (the hex string `0x01`), which differs from the base58
encoding of the hash bytes (`bs58encode [1] = "2"`), so the Aptos read
path does not base58-encode the transaction hash. -/
theorem aptos_txhash_not_base58 :
    (getAptosSchema c7client "0xpkg" "0xaddr").map AptosSchema.txHash =
        .ok (.string "0x01") ∧
      hexFromHexString (.string "0x01") = .ok [1] ∧
      bs58encode [1] = "2" ∧
      JSValue.string "0x01" ≠ JSValue.string (bs58encode [1]) := by
  refine ⟨rfl, rfl, rfl, ?_⟩
  intro h
  exact absurd (JSValue.string.inj h) (by decide)

/-- Claim C7 amended: the Sui `getSchema` base58-encodes the on-chain
`tx_hash` bytes into the returned entity's `txHash`, while the Aptos
`getAptosSchema` copies the view result's `tx_hash` field into the
entity verbatim, with no base58 encoding. -/
theorem txhash_encoding_per_chain (st : SuiChain) (cl : AptosViewClient)
    (id pid saddr : String) (B txh : List Nat) (nm ds ur : String) (rv : Bool)
    (creator createdAt : JSValue)
    (anm ads aur acr aca arv ars ath : JSValue) (schemaHex : String) (sb : List Nat)
    (hst : st.objects id = schemaObjectOf id B nm ds ur rv creator createdAt .nullv txh)
    (htx : ∀ b ∈ txh, b < 256)
    (hview : cl.view (pid ++ "::schema::schema_data") [.string saddr] =
      .array [aptosSchemaValueOf anm ads aur acr aca schemaHex arv ars ath])
    (hhex : hexFromHexString (.string schemaHex) = .ok sb) :
    (∃ s, getSchema st id = .ok s ∧ s.txHash = bs58encode txh) ∧
      ∃ r, getAptosSchema cl pid saddr = .ok r ∧ r.txHash = ath := by
  constructor
  · refine ⟨decodedSuiSchemaOf id B txh nm ds ur rv creator createdAt none, ?_, ?_⟩
    · rw [getSchema, hst]; rfl
    · show bs58encode ((txh.map fun b => JSValue.number (Int.ofNat b)).map jsToU8) = _
      rw [map_u8_id txh htx]
  · refine ⟨{ schemaAddr := saddr, name := anm, description := ads, url := aur,
              creator := acr, createdAt := aca, schema := sb, revokable := arv,
              resolver := ars, txHash := ath }, ?_, rfl⟩
    rw [getAptosSchema, hview]
    show decodeAptosSchema saddr
      (jsIndex (.array [aptosSchemaValueOf anm ads aur acr aca schemaHex arv ars ath]) 0) = _
    show (hexFromHexString (.string schemaHex)).bind _ = _
    rw [hhex]
    rfl

/-- Claim C7 amended witness: a Sui schema with hash bytes `[0, 1]`
yields `txHash = bs58encode [0, 1]`, and an Aptos schema with
`tx_hash = "0x01"` yields that string verbatim. -/
theorem txhash_encoding_per_chain_witness :
    (c7suiChain.objects "0xs" =
        schemaObjectOf "0xs" [1] "nm" "ds" "ur" true (.string "0xc") (.number 1) .nullv [0, 1]) ∧
      (∀ b ∈ [0, 1], b < 256) ∧
      (c7client.view ("0xpkg" ++ "::schema::schema_data") [.string "0xaddr"] =
        .array [aptosSchemaValueOf (.string "nm") (.string "ds") (.string "ur")
          (.string "0xc") (.number 1) "0x00" (.boolean true) (.string "0x0") (.string "0x01")]) ∧
      (hexFromHexString (.string "0x00") = .ok [0]) ∧
      (∃ s, getSchema c7suiChain "0xs" = .ok s ∧ s.txHash = bs58encode [0, 1]) ∧
      ∃ r, getAptosSchema c7client "0xpkg" "0xaddr" = .ok r ∧ r.txHash = .string "0x01" := by
  refine ⟨rfl, by decide, rfl, rfl, ?_⟩
  exact txhash_encoding_per_chain c7suiChain c7client "0xs" "0xpkg" "0xaddr" [1] [0, 1]
    "nm" "ds" "ur" true (.string "0xc") (.number 1) (.string "nm") (.string "ds") (.string "ur")
    (.string "0xc") (.number 1) (.boolean true) (.string "0x0") (.string "0x01") "0x00" [0]
    rfl (by decide) rfl rfl

/-- Claim C8: round-trip — executing the transaction built by
`Schema.new` with schema payload bytes `B` (under the spec-modelled
on-chain `schema::new` semantics) and reading the created object back
with `getSchema` yields a schema field exactly equal to `B`. -/
theorem schema_bytes_roundtrip (st : SuiChain) (id pid regId signer : String)
    (B txh : List Nat) (nm ds ur : String) (rv : Bool) (creator createdAt : JSValue)
    (hB : ∀ b ∈ B, b < 256)
    (hst : st.objects id =
      executeSchemaNewTx (schemaNewTx pid regId signer B nm ds ur rv) id creator createdAt txh) :
    ∃ s, getSchema st id = .ok s ∧ s.schema = B := by
  refine ⟨decodedSuiSchemaOf id B txh nm ds ur rv creator createdAt none, ?_, ?_⟩
  · rw [getSchema, hst]; rfl
  · exact map_u8_id B hB

/-- Claim C8 witness: payload bytes `[1, 2, 255]` survive the write and
read paths unchanged. -/
theorem schema_bytes_roundtrip_witness :
    (∀ b ∈ [1, 2, 255], b < 256) ∧
      (c8chain.objects "0xnew" =
        executeSchemaNewTx (schemaNewTx "0xpkg" "0xreg" "0xsigner" [1, 2, 255] "nm" "ds" "ur" true)
          "0xnew" (.string "0xc") (.number 7) [0, 1]) ∧
      ∃ s, getSchema c8chain "0xnew" = .ok s ∧ s.schema = [1, 2, 255] := by
  refine ⟨by decide, rfl, ?_⟩
  exact schema_bytes_roundtrip c8chain "0xnew" "0xpkg" "0xreg" "0xsigner" [1, 2, 255] [0, 1]
    "nm" "ds" "ur" true (.string "0xc") (.number 7) (by decide) rfl

/-- Claim C9: whenever the view call returns an array — the empty array
included — the not-found guards of `getAptosSchema` and
`getAptosAttestation` do not fire: arrays are truthy in JavaScript, so
the "Schema not found" / "Attestation not found" error branches are
unreachable on array results. -/
theorem not_found_guard_unreachable_on_array (cl : AptosViewClient)
    (pid saddr aaddr : String) (ls la : List JSValue)
    (h1 : cl.view (pid ++ "::schema::schema_data") [.string saddr] = .array ls)
    (h2 : cl.view (pid ++ "::attestation::attestation_data") [.string aaddr] = .array la) :
    getAptosSchema cl pid saddr ≠ .error (.errMsg "Schema not found") ∧
      getAptosAttestation cl pid aaddr ≠ .error (.errMsg "Attestation not found") := by
  constructor
  · rw [getAptosSchema, h1]
    show decodeAptosSchema saddr (jsIndex (.array ls) 0) ≠ _
    rcases decodeAptosSchema_shape saddr (jsIndex (.array ls) 0) with ⟨r, h⟩ | ⟨m, h⟩ | ⟨m, h⟩ <;>
      rw [h] <;> intro hc
    · exact Except.noConfusion hc
    · exact SdkError.noConfusion (Except.error.inj hc)
    · exact SdkError.noConfusion (Except.error.inj hc)
  · rw [getAptosAttestation, h2]
    show decodeAptosAttestation aaddr (jsIndex (.array la) 0) ≠ _
    rcases decodeAptosAttestation_shape aaddr (jsIndex (.array la) 0) with ⟨r, h⟩ | ⟨m, h⟩ | ⟨m, h⟩ <;>
      rw [h] <;> intro hc
    · exact Except.noConfusion hc
    · exact SdkError.noConfusion (Except.error.inj hc)
    · exact SdkError.noConfusion (Except.error.inj hc)

/-- Claim C9 witness: even on empty-array view results the not-found
branches do not fire. -/
theorem not_found_guard_unreachable_on_array_witness :
    (c9client.view ("0xpkg" ++ "::schema::schema_data") [.string "0xs"] = .array []) ∧
      (c9client.view ("0xpkg" ++ "::attestation::attestation_data") [.string "0xa"] = .array []) ∧
      getAptosSchema c9client "0xpkg" "0xs" ≠ .error (.errMsg "Schema not found") ∧
      getAptosAttestation c9client "0xpkg" "0xa" ≠ .error (.errMsg "Attestation not found") := by
  refine ⟨rfl, rfl, ?_⟩
  exact not_found_guard_unreachable_on_array c9client "0xpkg" "0xs" "0xa" [] [] rfl rfl

/-- Claim C10: for a fetched schema object the decoded resolver is
`none` exactly when the on-chain resolver field is null, absent, or has
no inner fields, and otherwise it is the record of the resolver's inner
`rules` and `config` fields taken verbatim. -/
theorem resolver_decoding_cases (st : SuiChain) (id : String) (B txh : List Nat)
    (nm ds ur : String) (rv : Bool) (creator createdAt r : JSValue) (s : SuiSchema)
    (hst : st.objects id = schemaObjectOf id B nm ds ur rv creator createdAt r txh)
    (hok : getSchema st id = .ok s) :
    ((r = .nullv ∨ r = .undefV ∨ ∃ ty, r = .object [("type", ty)]) → s.resolver = none) ∧
      ∀ ty fr, r = .object [("type", ty), ("fields", .object fr)] →
        s.resolver = some { rules := jsLookup fr "rules", config := jsLookup fr "config" } := by
  constructor
  · intro hcase
    rcases hcase with hr | hr | ⟨ty, hr⟩ <;> subst hr <;>
      rw [getSchema, hst] at hok
    · have hval : getSchemaFromResponse (schemaObjectOf id B nm ds ur rv creator createdAt .nullv txh) =
          .ok (decodedSuiSchemaOf id B txh nm ds ur rv creator createdAt none) := rfl
      have hs := Except.ok.inj (hval.symm.trans hok)
      rw [← hs]
      rfl
    · have hval : getSchemaFromResponse (schemaObjectOf id B nm ds ur rv creator createdAt .undefV txh) =
          .ok (decodedSuiSchemaOf id B txh nm ds ur rv creator createdAt none) := rfl
      have hs := Except.ok.inj (hval.symm.trans hok)
      rw [← hs]
      rfl
    · have hval : getSchemaFromResponse
          (schemaObjectOf id B nm ds ur rv creator createdAt (.object [("type", ty)]) txh) =
          .ok (decodedSuiSchemaOf id B txh nm ds ur rv creator createdAt none) := rfl
      have hs := Except.ok.inj (hval.symm.trans hok)
      rw [← hs]
      rfl
  · intro ty fr hr
    subst hr
    rw [getSchema, hst] at hok
    have hval : getSchemaFromResponse
        (schemaObjectOf id B nm ds ur rv creator createdAt
          (.object [("type", ty), ("fields", .object fr)]) txh) =
        .ok (decodedSuiSchemaOf id B txh nm ds ur rv creator createdAt
          (some { rules := jsLookup fr "rules", config := jsLookup fr "config" })) := rfl
    have hs := Except.ok.inj (hval.symm.trans hok)
    rw [← hs]
    rfl

/-- Claim C10 witness: a resolver present with inner `rules` and
`config` fields decodes to exactly those values. -/
theorem resolver_decoding_cases_witness :
    (c10chain.objects "0xs" =
        schemaObjectOf "0xs" [1] "nm" "ds" "ur" true (.string "0xc") (.number 1)
          (.object [("type", .string "T"),
            ("fields", .object [("rules", .string "R"), ("config", .string "C")])]) [1]) ∧
      (getSchema c10chain "0xs" =
        .ok (decodedSuiSchemaOf "0xs" [1] [1] "nm" "ds" "ur" true (.string "0xc") (.number 1)
          (some { rules := .string "R", config := .string "C" }))) ∧
      (decodedSuiSchemaOf "0xs" [1] [1] "nm" "ds" "ur" true (.string "0xc") (.number 1)
          (some { rules := .string "R", config := .string "C" })).resolver =
        some { rules := .string "R", config := .string "C" } := by
  refine ⟨rfl, rfl, ?_⟩
  exact (resolver_decoding_cases c10chain "0xs" [1] [1] "nm" "ds" "ur" true (.string "0xc")
      (.number 1)
      (.object [("type", .string "T"),
        ("fields", .object [("rules", .string "R"), ("config", .string "C")])])
      (decodedSuiSchemaOf "0xs" [1] [1] "nm" "ds" "ur" true (.string "0xc") (.number 1)
        (some { rules := .string "R", config := .string "C" }))
      rfl rfl).2 (.string "T") [("rules", .string "R"), ("config", .string "C")] rfl

end MasSdk
